import Mathlib

/-!
Verification development for the Snipe-IT depreciation export script
(`src/main.py`).

The definitions below are a shallow embedding of the script:
 * calendar dates follow the `datetime.date` type of Python (proleptic
   Gregorian calendar; `toOrdinal` is `date.toordinal`, day 1 = 0001-01-01,
   with `daysBeforeYear`, `daysBeforeMonth` and `daysInMonth` transcribed
   from `_days_before_year`, `_days_before_month` and `_days_in_month` of
   CPython `datetime`);
 * `relativedelta(months=n)` becomes `addMonthsClamped` (roll the month
   index forward by `n`, clamp the day to the length of the target month);
 * `parse_months_field` mirrors the `re.search` extraction of the first
   digit run (restricted to ASCII digits);
 * money amounts are exact rationals; `round(x, 2)` becomes `round2`
   (round half to even, as the Python builtin rounds);
 * values that the script obtains from external parsers (`dateutil` for
   the purchase date, `float` for the cost) are modelled by their
   outcome: field absent, present but unparsable, or parsed;
 * the network gateway (`fetch_depreciation_schedule`,
   `fetch_model_detail`, `fetch_asset_detail`) is an environment of total
   lookup functions; a transport failure aborts the whole Python run via
   `sys.exit` and is outside the amount computation modelled here.

Python `date` values are always valid calendar dates and compare
lexicographically on (year, month, day), which on valid dates agrees with
comparison of `toOrdinal`; the embedding compares ordinals.
-/

/-! ### Calendar dates (`datetime.date`) -/

structure Date where
  year : Nat
  month : Nat
  day : Nat
deriving DecidableEq, Repr

/-- Gregorian leap-year rule (`datetime._is_leap`). -/
def isLeapYear (y : Nat) : Bool :=
  y % 4 = 0 && (y % 100 != 0 || y % 400 = 0)

/-- Length of month `m` of year `y` (`datetime._days_in_month`);
months outside 1..12 do not occur on valid dates and get length 0. -/
def daysInMonth (y m : Nat) : Nat :=
  match m with
  | 1 => 31
  | 2 => if isLeapYear y then 29 else 28
  | 3 => 31
  | 4 => 30
  | 5 => 31
  | 6 => 30
  | 7 => 31
  | 8 => 31
  | 9 => 30
  | 10 => 31
  | 11 => 30
  | 12 => 31
  | _ => 0

/-- Days in all years strictly before year `y`
(`datetime._days_before_year`). -/
def daysBeforeYear (y : Nat) : Nat :=
  365 * (y - 1) + (y - 1) / 4 - (y - 1) / 100 + (y - 1) / 400

/-- Days of year `y` strictly before month `m`
(`datetime._days_before_month`: a table lookup plus a leap-day
adjustment for months past February). -/
def daysBeforeMonth (y m : Nat) : Nat :=
  (match m with
   | 1 => 0
   | 2 => 31
   | 3 => 59
   | 4 => 90
   | 5 => 120
   | 6 => 151
   | 7 => 181
   | 8 => 212
   | 9 => 243
   | 10 => 273
   | 11 => 304
   | 12 => 334
   | _ => 0) +
  (if 3 ≤ m ∧ isLeapYear y then 1 else 0)

/-- `date.toordinal`: 0001-01-01 is day 1. -/
def toOrdinal (d : Date) : Nat :=
  daysBeforeYear d.year + daysBeforeMonth d.year d.month + d.day

/-- A value the `date` constructor accepts. -/
def ValidDate (d : Date) : Prop :=
  1 ≤ d.year ∧ 1 ≤ d.month ∧ d.month ≤ 12 ∧ 1 ≤ d.day ∧
    d.day ≤ daysInMonth d.year d.month

instance (d : Date) : Decidable (ValidDate d) := by
  unfold ValidDate; infer_instance

/-- `d + relativedelta(months=n)`: roll the month index forward by `n`,
clamping the day-of-month when the target month is shorter. -/
def addMonthsClamped (d : Date) (n : Nat) : Date :=
  ⟨d.year + (d.month - 1 + n) / 12,
   (d.month - 1 + n) % 12 + 1,
   min d.day
     (daysInMonth (d.year + (d.month - 1 + n) / 12) ((d.month - 1 + n) % 12 + 1))⟩

/-- `d - timedelta(days=1)` computed on the calendar. -/
def predDate (d : Date) : Date :=
  if 2 ≤ d.day then ⟨d.year, d.month, d.day - 1⟩
  else if 2 ≤ d.month then
    ⟨d.year, d.month - 1, daysInMonth d.year (d.month - 1)⟩
  else ⟨d.year - 1, 12, 31⟩

/-! ### Month-count parsing (`parse_months_field`) -/

/-- Numeric value of a digit run, as `int` applied to the matched text. -/
def digitsVal (cs : List Char) : Nat :=
  cs.foldl (fun a c => a * 10 + (c.toNat - 48)) 0

/-- The first maximal run of decimal digits in a character list, if any
(the text matched by the `re.search` pattern of one-or-more digits). -/
def firstDigitRun : List Char → Option (List Char)
  | [] => none
  | c :: rest =>
    if c.isDigit then some ((c :: rest).takeWhile Char.isDigit)
    else firstDigitRun rest

/-- `parse_months_field`: extract the integer month count from a string
such as "36 months"; `none` models the `ValueError` raised when the
string holds no digits. -/
def parse_months_field (s : String) : Option Nat :=
  (firstDigitRun s.data).map digitsVal

/-! ### Rounding (`round(x, 2)`) -/

/-- Bankers rounding of a rational to the nearest integer, as the Python
builtin `round` does: round half to even. -/
def roundHalfEven (q : ℚ) : ℤ :=
  if q - ⌊q⌋ < 1 / 2 then ⌊q⌋
  else if (1 : ℚ) / 2 < q - ⌊q⌋ then ⌊q⌋ + 1
  else if ⌊q⌋ % 2 = 0 then ⌊q⌋ else ⌊q⌋ + 1

/-- `round(x, 2)`: round to the nearest cent, half to even. -/
def round2 (q : ℚ) : ℚ :=
  (roundHalfEven (q * 100) : ℚ) / 100

/-! ### Depreciation calculator (`compute_depreciation_from_detail`,
steps 4-8) -/

/-- Step 4: `end_of_life = purchase_date + relativedelta(months=life_months)
- timedelta(days=1)`. -/
def end_of_life (purchase : Date) (months : Nat) : Date :=
  predDate (addMonthsClamped purchase months)

/-- Step 7: `total_life_days = (end_of_life - purchase_date).days + 1`. -/
def total_life_days (purchase : Date) (months : Nat) : ℤ :=
  (toOrdinal (end_of_life purchase months) : ℤ) - (toOrdinal purchase : ℤ) + 1

/-- Step 8: `depr_days = (period_end - period_start).days + 1`, where
`period_start = max(purchase_date, start_date)` and
`period_end = min(end_of_life, end_date)` (step 6). -/
def depr_days (purchase ws we : Date) (months : Nat) : ℤ :=
  (min (toOrdinal (end_of_life purchase months)) (toOrdinal we) : ℤ) -
    (max (toOrdinal purchase) (toOrdinal ws) : ℤ) + 1

/-- Steps 4-8 of `compute_depreciation_from_detail`, after the purchase
date, cost and month count have been obtained: skip when the useful life
ends before the window opens (step 5), skip when the overlap period is
empty (step 6), otherwise `round(cost / total_life_days * depr_days, 2)`
(steps 7-8). -/
def computeCore (purchase : Date) (cost : ℚ) (months : Nat)
    (ws we : Date) : ℚ :=
  if toOrdinal (end_of_life purchase months) < toOrdinal ws then 0
  else if min (toOrdinal (end_of_life purchase months)) (toOrdinal we) <
      max (toOrdinal purchase) (toOrdinal ws) then 0
  else round2 (cost / (total_life_days purchase months : ℚ) *
    (depr_days purchase ws we months : ℚ))

/-! ### Asset details, gateway environment, schedule resolution -/

/-- Outcome of handing a present field to an external parser:
`ok v` when parsing succeeded with value `v`, `bad` when the parser
raised (`dateutil.parser.parse` for dates, `float` for costs). -/
inductive ParsedVal (α : Type) where
  | ok (v : α)
  | bad
deriving DecidableEq

/-- The fields of one `detail_obj` that the computation reads.
`purchase_date = none` models a missing or falsy `purchase_date` field
or a null inner `date`; `purchase_cost = none` models a falsy
`purchase_cost`; `depreciation` is the asset-level schedule id when one
is present, `model` the model id when one is present. -/
structure AssetDetail where
  purchase_date : Option (ParsedVal Date)
  purchase_cost : Option (ParsedVal ℚ)
  depreciation : Option Nat
  model : Option Nat

/-- The remote Snipe-IT gateway, as total lookups: `schedules` is the
`months` field of a depreciation schedule (`none` when absent),
`models` the schedule id carried by a model (`none` when the model has
no depreciation info), `details` the detail record of an asset id. -/
structure Env where
  schedules : Nat → Option String
  models : Nat → Option Nat
  details : Nat → AssetDetail

/-- Step 3 of `compute_depreciation_from_detail`: determine the month
count, from the schedule reference of the asset itself when present,
otherwise from the schedule reference of its model; `none` models every
path of this step that makes the script return 0.0 (missing or empty
`months` field, unparsable `months` string, missing model id, model
without depreciation info). -/
def resolveMonths (env : Env) (detail : AssetDetail) : Option Nat :=
  match detail.depreciation with
  | some sid =>
    match env.schedules sid with
    | none => none
    | some s => if s = "" then none else parse_months_field s
  | none =>
    match detail.model with
    | none => none
    | some mid =>
      match env.models mid with
      | none => none
      | some sid =>
        match env.schedules sid with
        | none => none
        | some s => if s = "" then none else parse_months_field s

/-- `compute_depreciation_from_detail`: steps 1-2 short-circuit to 0 on a
missing or unparsable purchase date or cost, step 3 resolves the month
count (0 on failure), steps 4-8 run `computeCore`. The Lean function is
total, matching the contract that the Python function never raises. -/
def compute_depreciation_from_detail (env : Env) (detail : AssetDetail)
    (ws we : Date) : ℚ :=
  match detail.purchase_date with
  | none => 0
  | some ParsedVal.bad => 0
  | some (ParsedVal.ok purchase) =>
    match detail.purchase_cost with
    | none => 0
    | some ParsedVal.bad => 0
    | some (ParsedVal.ok cost) =>
      match resolveMonths env detail with
      | none => 0
      | some months => computeCore purchase cost months ws we

/-! ### Batch processing (the per-asset loop in `main`) -/

/-- One row of the paginated asset list: id (the row is skipped when it
is absent) and display tag. -/
structure AssetSummary where
  id : Option Nat
  tag : String

/-- One output row: asset tag and computed amount. -/
structure DeprEntry where
  asset_tag : String
  depreciation : ℚ
deriving DecidableEq

/-- The per-asset loop of `main`: fetch the detail of each asset that has
an id, compute its amount, and when the amount is positive add it to the
running total and append an entry. The total is accumulated by rational
addition, so the grouping used here has the same value as the
left-to-right accumulation of the script. -/
def processAssets (env : Env) (ws we : Date) :
    List AssetSummary → List DeprEntry × ℚ
  | [] => ([], 0)
  | a :: rest =>
    match a.id with
    | none => processAssets env ws we rest
    | some aid =>
      let amt := compute_depreciation_from_detail env (env.details aid) ws we
      let r := processAssets env ws we rest
      if 0 < amt then (⟨a.tag, amt⟩ :: r.1, r.2 + amt) else r

/-- The entry (if any) that one asset summary contributes to the output
list: present exactly when the row has an id and the computed amount is
positive. -/
def emitEntry (env : Env) (ws we : Date) (a : AssetSummary) :
    Option DeprEntry :=
  match a.id with
  | none => none
  | some aid =>
    let amt := compute_depreciation_from_detail env (env.details aid) ws we
    if 0 < amt then some ⟨a.tag, amt⟩ else none

/-! ### Auxiliary definitions for the proofs -/

/-- The first day of the month with absolute month index `i`
(index = 12 * year + month - 1), as an ordinal minus one. -/
def monthStart (i : Nat) : Nat :=
  daysBeforeYear (i / 12) + daysBeforeMonth (i / 12) (i % 12 + 1)

/-! ### Concrete sample records used to instantiate universally
quantified theorems -/

/-- A well-formed detail record carrying its own schedule reference 5 and
a model reference 7. -/
def detailFull : AssetDetail :=
  ⟨some (ParsedVal.ok ⟨2020, 1, 1⟩), some (ParsedVal.ok 1200), some 5, some 7⟩

/-- The same record without an asset-level schedule reference. -/
def detailNoSched : AssetDetail :=
  ⟨some (ParsedVal.ok ⟨2020, 1, 1⟩), some (ParsedVal.ok 1200), none, some 7⟩

/-- The same record with a missing purchase date. -/
def detailNoDate : AssetDetail :=
  ⟨none, some (ParsedVal.ok 1200), some 5, some 7⟩

/-- A gateway in which every schedule reads "36 months" and every model
points at schedule 9. -/
def envGood : Env :=
  ⟨fun _ => some "36 months", fun _ => some 9, fun _ => detailFull⟩

/-- Like `envGood` but schedule 5 has the malformed months string "N/A". -/
def envBadSched : Env :=
  ⟨fun sid => if sid = 5 then some "N/A" else some "36 months",
   fun _ => some 9, fun _ => detailFull⟩

/-- An asset-list row with an id. -/
def sumA : AssetSummary := ⟨some 1, "A1"⟩

/-- An asset-list row without an id (skipped by the loop). -/
def sumB : AssetSummary := ⟨none, "B"⟩

/-! ### Proofs -/

theorem isLeap_iff (y : Nat) :
    isLeapYear y = true ↔ (y % 4 = 0 ∧ (y % 100 ≠ 0 ∨ y % 400 = 0)) := by
  simp [isLeapYear, Bool.and_eq_true, Bool.or_eq_true, bne_iff_ne, decide_eq_true_eq]

theorem dim_ge_28 (y m : Nat) (h1 : 1 ≤ m) (h2 : m ≤ 12) :
    28 ≤ daysInMonth y m := by
  rcases h : isLeapYear y with _ | _ <;> interval_cases m <;>
    norm_num [daysInMonth, h]

theorem dim_le_31 (y m : Nat) : daysInMonth y m ≤ 31 := by
  unfold daysInMonth
  split <;> (try split) <;> omega

theorem dby_step (y : Nat) (hy : 1 ≤ y) :
    daysBeforeYear (y + 1) =
      daysBeforeYear y + (if isLeapYear y then 366 else 365) := by
  have hiff := isLeap_iff y
  obtain ⟨z, rfl⟩ : ∃ z, y = z + 1 := ⟨y - 1, by omega⟩
  split
  · have hl := hiff.mp (by assumption)
    unfold daysBeforeYear
    simp only [Nat.add_sub_cancel, Nat.succ_div]
    by_cases h4 : (4:ℕ) ∣ z + 1 <;> by_cases h100 : (100:ℕ) ∣ z + 1 <;>
      by_cases h400 : (400:ℕ) ∣ z + 1 <;>
        simp only [h4, h100, h400, if_true, if_false] <;> omega
  · have hl : ¬((z + 1) % 4 = 0 ∧ ((z + 1) % 100 ≠ 0 ∨ (z + 1) % 400 = 0)) := by
      intro hc
      exact absurd (hiff.mpr hc) (by assumption)
    unfold daysBeforeYear
    simp only [Nat.add_sub_cancel, Nat.succ_div]
    by_cases h4 : (4:ℕ) ∣ z + 1 <;> by_cases h100 : (100:ℕ) ∣ z + 1 <;>
      by_cases h400 : (400:ℕ) ∣ z + 1 <;>
        simp only [h4, h100, h400, if_true, if_false] <;> omega

theorem dbm_succ (y m : Nat) (h1 : 1 ≤ m) (h2 : m ≤ 11) :
    daysBeforeMonth y (m + 1) = daysBeforeMonth y m + daysInMonth y m := by
  rcases h : isLeapYear y with _ | _ <;> interval_cases m <;>
    simp [daysBeforeMonth, daysInMonth, h]

theorem dbm_12 (y : Nat) :
    daysBeforeMonth y 12 = 334 + (if isLeapYear y then 1 else 0) := by
  rcases h : isLeapYear y with _ | _ <;> simp [daysBeforeMonth, h]

theorem dbm_1 (y : Nat) : daysBeforeMonth y 1 = 0 := by
  simp [daysBeforeMonth]

theorem monthStart_succ (i : Nat) (h : 12 ≤ i) :
    monthStart i + 28 ≤ monthStart (i + 1) := by
  unfold monthStart
  rcases Nat.lt_or_ge (i % 12) 11 with h11 | h11
  · have e1 : (i + 1) / 12 = i / 12 := by omega
    have e2 : (i + 1) % 12 + 1 = (i % 12 + 1) + 1 := by omega
    rw [e1, e2, dbm_succ (i / 12) (i % 12 + 1) (by omega) (by omega)]
    have := dim_ge_28 (i / 12) (i % 12 + 1) (by omega) (by omega)
    omega
  · have h11' : i % 12 = 11 := by omega
    have e1 : (i + 1) / 12 = i / 12 + 1 := by omega
    have e2 : (i + 1) % 12 + 1 = 1 := by omega
    rw [e1, e2, h11', dbm_1, dby_step (i / 12) (by omega), dbm_12]
    split <;> omega

theorem monthStart_add (i k : Nat) (h : 12 ≤ i) :
    monthStart i + 28 * k ≤ monthStart (i + k) := by
  induction k with
  | zero => simp
  | succ n ih =>
    have hs := monthStart_succ (i + n) (by omega)
    have : i + (n + 1) = (i + n) + 1 := by omega
    rw [this]
    omega

theorem addMonths_valid (d : Date) (n : Nat) (hv : ValidDate d) :
    ValidDate (addMonthsClamped d n) := by
  obtain ⟨hy, hm1, hm2, hd1, hd2⟩ := hv
  have hdim := dim_ge_28 (d.year + (d.month - 1 + n) / 12)
    ((d.month - 1 + n) % 12 + 1) (by omega) (by omega)
  unfold addMonthsClamped ValidDate
  simp only
  refine ⟨by omega, by omega, by omega, by omega, by omega⟩

theorem toOrdinal_month_decomp (d : Date) (hm1 : 1 ≤ d.month)
    (hm2 : d.month ≤ 12) :
    toOrdinal d = monthStart (12 * d.year + (d.month - 1)) + d.day := by
  unfold toOrdinal monthStart
  have e1 : (12 * d.year + (d.month - 1)) / 12 = d.year := by omega
  have e2 : (12 * d.year + (d.month - 1)) % 12 + 1 = d.month := by omega
  rw [e1, e2]

theorem ord_addMonths_ge (d : Date) (n : Nat) (hv : ValidDate d)
    (hn : 1 ≤ n) :
    toOrdinal d + 1 ≤ toOrdinal (addMonthsClamped d n) := by
  obtain ⟨hy, hm1, hm2, hd1, hd2⟩ := hv
  have h1 : toOrdinal d = monthStart (12 * d.year + (d.month - 1)) + d.day :=
    toOrdinal_month_decomp d hm1 hm2
  have hvn := addMonths_valid d n ⟨hy, hm1, hm2, hd1, hd2⟩
  obtain ⟨hy', hm1', hm2', hd1', hd2'⟩ := hvn
  have h2 : toOrdinal (addMonthsClamped d n) =
      monthStart (12 * (addMonthsClamped d n).year +
        ((addMonthsClamped d n).month - 1)) + (addMonthsClamped d n).day :=
    toOrdinal_month_decomp _ hm1' hm2'
  have hidx : 12 * (addMonthsClamped d n).year +
      ((addMonthsClamped d n).month - 1) =
      12 * d.year + (d.month - 1) + n := by
    unfold addMonthsClamped
    simp only
    omega
  have hms := monthStart_add (12 * d.year + (d.month - 1)) n (by omega)
  have hday : (addMonthsClamped d n).day =
      min d.day (daysInMonth (addMonthsClamped d n).year
        (addMonthsClamped d n).month) := rfl
  have hdim28 : 28 ≤ daysInMonth (addMonthsClamped d n).year
      (addMonthsClamped d n).month := dim_ge_28 _ _ hm1' hm2'
  have hd31 : d.day ≤ 31 := le_trans hd2 (dim_le_31 _ _)
  rw [h1, h2, hidx]
  omega

theorem toOrdinal_pred (d : Date) (hv : ValidDate d)
    (h2 : 2 ≤ toOrdinal d) :
    toOrdinal (predDate d) + 1 = toOrdinal d := by
  obtain ⟨hy, hm1, hm2, hd1, hd2⟩ := hv
  unfold predDate
  split
  · unfold toOrdinal
    simp only
    omega
  · split
    · unfold toOrdinal
      simp only
      have hstep := dbm_succ d.year (d.month - 1) (by omega) (by omega)
      have e : d.month - 1 + 1 = d.month := by omega
      rw [e] at hstep
      omega
    · -- day = 1, month = 1: previous day is December 31 of the prior year
      have hm : d.month = 1 := by omega
      have hd : d.day = 1 := by omega
      have hyge : 2 ≤ d.year := by
        by_contra hc
        have hy1 : d.year = 1 := by omega
        unfold toOrdinal at h2
        rw [hy1, hm, hd] at h2
        simp [daysBeforeYear, dbm_1] at h2
      unfold toOrdinal
      simp only
      rw [hm, dbm_1, dbm_12]
      have hstep := dby_step (d.year - 1) (by omega)
      have e : d.year - 1 + 1 = d.year := by omega
      rw [e] at hstep
      split at hstep <;> simp_all

theorem addMonths_zero (d : Date) (hv : ValidDate d) :
    addMonthsClamped d 0 = d := by
  obtain ⟨hy, hm1, hm2, hd1, hd2⟩ := hv
  unfold addMonthsClamped
  have e1 : (d.month - 1 + 0) / 12 = 0 := by omega
  have e2 : (d.month - 1 + 0) % 12 + 1 = d.month := by omega
  rw [e1, e2]
  have e3 : min d.day (daysInMonth (d.year + 0) d.month) = d.day := by
    have : d.year + 0 = d.year := by omega
    rw [this]
    omega
  rw [e3]
  cases d
  simp

theorem ord_eol_ge (d : Date) (n : Nat) (hv : ValidDate d) (hn : 1 ≤ n) :
    toOrdinal d ≤ toOrdinal (end_of_life d n) := by
  have h1 := ord_addMonths_ge d n hv hn
  have hvn := addMonths_valid d n hv
  have h2 := toOrdinal_pred (addMonthsClamped d n) hvn (by
    have : 1 ≤ toOrdinal d := by
      unfold toOrdinal
      obtain ⟨hy, hm1, hm2, hd1, hd2⟩ := hv
      omega
    omega)
  unfold end_of_life
  omega

theorem eol_ord_pred (d : Date) (n : Nat) (hv : ValidDate d) (hn : 1 ≤ n) :
    toOrdinal (end_of_life d n) + 1 = toOrdinal (addMonthsClamped d n) := by
  have h1 := ord_addMonths_ge d n hv hn
  have hvn := addMonths_valid d n hv
  have hord1 : 1 ≤ toOrdinal d := by
    unfold toOrdinal
    obtain ⟨hy, hm1, hm2, hd1, hd2⟩ := hv
    omega
  exact toOrdinal_pred (addMonthsClamped d n) hvn (by omega)

theorem ord_eol_zero_lt (d : Date) (hv : ValidDate d)
    (h2 : 2 ≤ toOrdinal d) :
    toOrdinal (end_of_life d 0) < toOrdinal d := by
  unfold end_of_life
  rw [addMonths_zero d hv]
  have := toOrdinal_pred d hv h2
  omega

/-- Claim C6: for every asset with valid inputs the calculator returns 0
whenever the useful life and the reporting window do not overlap: when
`end_of_life` is strictly before the window start, and when the purchase
date is strictly after the window end. -/
theorem claim6_no_overlap_zero :
    (∀ (p : Date) (cost : ℚ) (n : Nat) (ws we : Date),
      toOrdinal (end_of_life p n) < toOrdinal ws →
      computeCore p cost n ws we = 0) ∧
    (∀ (p : Date) (cost : ℚ) (n : Nat) (ws we : Date),
      toOrdinal we < toOrdinal p →
      computeCore p cost n ws we = 0) := by
  constructor
  · intro p cost n ws we h
    unfold computeCore
    rw [if_pos h]
  · intro p cost n ws we h
    unfold computeCore
    split
    · rfl
    · rw [if_pos (by omega)]

/-- Claim C10 (implicit): the division `cost / total_life_days` is never
a division by zero. For month count 0 the computation returns 0 through
the two skip guards before the division is reached, and whenever both
guards are passed the divisor `total_life_days` is at least 1. -/
theorem claim10_division_guard :
    (∀ (p : Date) (cost : ℚ) (ws we : Date),
      ValidDate p → 2 ≤ toOrdinal p →
      computeCore p cost 0 ws we = 0) ∧
    (∀ (p : Date) (n : Nat) (ws we : Date),
      ¬(toOrdinal (end_of_life p n) < toOrdinal ws) →
      ¬(min (toOrdinal (end_of_life p n)) (toOrdinal we) <
          max (toOrdinal p) (toOrdinal ws)) →
      1 ≤ total_life_days p n) := by
  constructor
  · intro p cost ws we hv h2
    have hlt := ord_eol_zero_lt p hv h2
    unfold computeCore
    split
    · rfl
    · rw [if_pos (by omega)]
  · intro p n ws we h1 h2
    unfold total_life_days
    omega

/-- Claim C7: an asset with valid inputs whose `end_of_life` equals the
window start exactly is not skipped by either no-overlap guard; it is
charged exactly one day of depreciation, so the amount is
`round(cost / total_life_days * 1, 2)`. -/
theorem claim7_boundary_one_day :
    ∀ (p : Date) (cost : ℚ) (n : Nat) (ws we : Date),
      ValidDate p → 1 ≤ n → end_of_life p n = ws →
      toOrdinal ws ≤ toOrdinal we →
      ¬(toOrdinal (end_of_life p n) < toOrdinal ws) ∧
      ¬(min (toOrdinal (end_of_life p n)) (toOrdinal we) <
          max (toOrdinal p) (toOrdinal ws)) ∧
      depr_days p ws we n = 1 ∧
      computeCore p cost n ws we =
        round2 (cost / (total_life_days p n : ℚ) * 1) := by
  intro p cost n ws we hv hn heol hwin
  have hple : toOrdinal p ≤ toOrdinal (end_of_life p n) := ord_eol_ge p n hv hn
  rw [heol] at hple
  have h1 : ¬(toOrdinal (end_of_life p n) < toOrdinal ws) := by
    rw [heol]; omega
  have h2 : ¬(min (toOrdinal (end_of_life p n)) (toOrdinal we) <
      max (toOrdinal p) (toOrdinal ws)) := by
    rw [heol]; omega
  have h3 : depr_days p ws we n = 1 := by
    unfold depr_days; rw [heol]; omega
  refine ⟨h1, h2, h3, ?_⟩
  unfold computeCore
  rw [if_neg h1, if_neg h2, h3]
  norm_num

/-- Claim C5: the end of useful life is the purchase date advanced by
`n` calendar months minus one day, where month addition rolls the
absolute month index forward by exactly `n`, clamps the day-of-month to
the target month (yielding a valid date), and the subsequent minus one
day decrements the ordinal by exactly 1; for example 2020-01-31 plus one
month is 2020-02-29. -/
theorem claim5_end_of_life_spec :
    (∀ (d : Date) (n : Nat), ValidDate d →
      12 * (addMonthsClamped d n).year + ((addMonthsClamped d n).month - 1) =
        12 * d.year + (d.month - 1) + n ∧
      (addMonthsClamped d n).day =
        min d.day (daysInMonth (addMonthsClamped d n).year
          (addMonthsClamped d n).month) ∧
      ValidDate (addMonthsClamped d n)) ∧
    (∀ (d : Date) (n : Nat), ValidDate d → 1 ≤ n →
      toOrdinal (end_of_life d n) + 1 = toOrdinal (addMonthsClamped d n)) ∧
    addMonthsClamped ⟨2020, 1, 31⟩ 1 = ⟨2020, 2, 29⟩ := by
  refine ⟨?_, ?_, by decide⟩
  · intro d n hv
    refine ⟨?_, rfl, addMonths_valid d n hv⟩
    obtain ⟨hy, hm1, hm2, hd1, hd2⟩ := hv
    unfold addMonthsClamped
    simp only
    omega
  · intro d n hv hn
    exact eol_ord_pred d n hv hn

/-- Claim C1, counterexample: the claimed amounts are wrong. The code
does not return 400.66 for scenario 1 (it returns 400.73) nor 712.90
for scenario 2 (it returns 712.68). -/
theorem claim1_counterexample :
    ¬(computeCore ⟨2020, 1, 1⟩ 1200 36 ⟨2020, 1, 1⟩ ⟨2020, 12, 31⟩ =
        40066 / 100 ∧
      computeCore ⟨2021, 6, 1⟩ 3650 36 ⟨2021, 6, 1⟩ ⟨2021, 12, 31⟩ =
        71290 / 100) := by
  have h1 : computeCore ⟨2020, 1, 1⟩ 1200 36 ⟨2020, 1, 1⟩ ⟨2020, 12, 31⟩ =
      40073 / 100 := by
    norm_num [computeCore, round2, roundHalfEven, end_of_life, total_life_days,
      depr_days, toOrdinal, daysBeforeYear, daysBeforeMonth, daysInMonth,
      addMonthsClamped, predDate, isLeapYear]
  intro ⟨hc, _⟩
  rw [h1] at hc
  norm_num at hc

/-- Claim C1, amended: for scenario 1 (purchase 2020-01-01, cost
1200.00, 36 months, window 2020-01-01 .. 2020-12-31) and scenario 2
(purchase 2021-06-01, cost 3650.00, 36 months, window 2021-06-01 ..
2021-12-31) the computation yields end_of_life 2022-12-31 resp.
2024-05-31, total_life_days 1096 in both, window days 366 resp. 214, and
amounts 400.73 resp. 712.68 after rounding to 2 decimal places. -/
theorem claim1_scenarios :
    end_of_life ⟨2020, 1, 1⟩ 36 = ⟨2022, 12, 31⟩ ∧
    end_of_life ⟨2021, 6, 1⟩ 36 = ⟨2024, 5, 31⟩ ∧
    total_life_days ⟨2020, 1, 1⟩ 36 = 1096 ∧
    total_life_days ⟨2021, 6, 1⟩ 36 = 1096 ∧
    depr_days ⟨2020, 1, 1⟩ ⟨2020, 1, 1⟩ ⟨2020, 12, 31⟩ 36 = 366 ∧
    depr_days ⟨2021, 6, 1⟩ ⟨2021, 6, 1⟩ ⟨2021, 12, 31⟩ 36 = 214 ∧
    computeCore ⟨2020, 1, 1⟩ 1200 36 ⟨2020, 1, 1⟩ ⟨2020, 12, 31⟩ =
      40073 / 100 ∧
    computeCore ⟨2021, 6, 1⟩ 3650 36 ⟨2021, 6, 1⟩ ⟨2021, 12, 31⟩ =
      71268 / 100 := by
  refine ⟨by decide, by decide, by decide, by decide, by decide, by decide,
    ?_, ?_⟩ <;>
    norm_num [computeCore, round2, roundHalfEven, end_of_life, total_life_days,
      depr_days, toOrdinal, daysBeforeYear, daysBeforeMonth, daysInMonth,
      addMonthsClamped, predDate, isLeapYear]

/-- Claim C2: when an asset carries its own schedule reference whose
months field is missing or whose months string does not parse,
resolution fails and the amount is 0 in every environment, in particular
also when a valid model schedule exists; and with an own schedule
reference present the resolution result depends only on the schedule
lookup, never on the model lookup. -/
theorem claim2_no_model_fallback :
    (∀ (env : Env) (detail : AssetDetail) (sid : Nat) (ws we : Date),
      detail.depreciation = some sid →
      (env.schedules sid = none ∨
        ∃ s, env.schedules sid = some s ∧ parse_months_field s = none) →
      resolveMonths env detail = none ∧
      compute_depreciation_from_detail env detail ws we = 0) ∧
    (∀ (env env2 : Env) (detail : AssetDetail),
      detail.depreciation ≠ none →
      env.schedules = env2.schedules →
      resolveMonths env detail = resolveMonths env2 detail) := by
  constructor
  · intro env detail sid ws we hdep hbad
    have hres : resolveMonths env detail = none := by
      rcases hbad with h | ⟨s, hs, hp⟩
      · simp [resolveMonths, hdep, h]
      · simp only [resolveMonths, hdep, hs]
        split
        · rfl
        · exact hp
    refine ⟨hres, ?_⟩
    rcases hpd : detail.purchase_date with _ | pd
    · simp [compute_depreciation_from_detail, hpd]
    · rcases pd with v | _
      · rcases hpc : detail.purchase_cost with _ | pc
        · simp [compute_depreciation_from_detail, hpd, hpc]
        · rcases pc with c | _
          · simp [compute_depreciation_from_detail, hpd, hpc, hres]
          · simp [compute_depreciation_from_detail, hpd, hpc]
      · simp [compute_depreciation_from_detail, hpd]
  · intro env env2 detail hdep hsched
    rcases hd : detail.depreciation with _ | sid
    · exact absurd hd hdep
    · simp only [resolveMonths, hd, hsched]

/-- Claim C3: a missing or unparsable purchase date, a missing or
unparsable purchase cost, and an unresolvable schedule each make the
per-asset computation return amount 0 (the Lean function is total, so no
error is possible); and when the purchase date or cost is bad the result
is independent of the gateway environment, i.e. no schedule or model
lookup is consulted. -/
theorem claim3_invalid_inputs_zero :
    (∀ (env : Env) (detail : AssetDetail) (ws we : Date),
      detail.purchase_date = none ∨
        detail.purchase_date = some ParsedVal.bad ∨
        detail.purchase_cost = none ∨
        detail.purchase_cost = some ParsedVal.bad ∨
        resolveMonths env detail = none →
      compute_depreciation_from_detail env detail ws we = 0) ∧
    (∀ (env env2 : Env) (detail : AssetDetail) (ws we : Date),
      detail.purchase_date = none ∨
        detail.purchase_date = some ParsedVal.bad ∨
        detail.purchase_cost = none ∨
        detail.purchase_cost = some ParsedVal.bad →
      compute_depreciation_from_detail env detail ws we =
        compute_depreciation_from_detail env2 detail ws we) := by
  constructor
  · intro env detail ws we hbad
    rcases hpd : detail.purchase_date with _ | pd
    · simp [compute_depreciation_from_detail, hpd]
    · rcases pd with v | _
      · rcases hpc : detail.purchase_cost with _ | pc
        · simp [compute_depreciation_from_detail, hpd, hpc]
        · rcases pc with c | _
          · have hres : resolveMonths env detail = none := by
              rcases hbad with h | h | h | h | h
              · simp [h] at hpd
              · simp [h] at hpd
              · simp [h] at hpc
              · simp [h] at hpc
              · exact h
            simp [compute_depreciation_from_detail, hpd, hpc, hres]
          · simp [compute_depreciation_from_detail, hpd, hpc]
      · simp [compute_depreciation_from_detail, hpd]
  · intro env env2 detail ws we hbad
    rcases hpd : detail.purchase_date with _ | pd
    · simp [compute_depreciation_from_detail, hpd]
    · rcases pd with v | _
      · rcases hpc : detail.purchase_cost with _ | pc
        · simp [compute_depreciation_from_detail, hpd, hpc]
        · rcases pc with c | _
          · rcases hbad with h | h | h | h
            · simp [h] at hpd
            · simp [h] at hpd
            · simp [h] at hpc
            · simp [h] at hpc
          · simp [compute_depreciation_from_detail, hpd, hpc]
      · simp [compute_depreciation_from_detail, hpd]

/-- Claim C9: an asset without an own schedule reference whose model
carries a schedule reference resolves to the same month count, and hence
the same amount, as the same asset with that schedule attached
directly. -/
theorem claim9_model_fallback_equiv :
    ∀ (env : Env) (detail : AssetDetail) (mid sid : Nat) (ws we : Date),
      detail.depreciation = none → detail.model = some mid →
      env.models mid = some sid →
      resolveMonths env detail =
        resolveMonths env { detail with depreciation := some sid } ∧
      compute_depreciation_from_detail env detail ws we =
        compute_depreciation_from_detail env
          { detail with depreciation := some sid } ws we := by
  intro env detail mid sid ws we hdep hmod hms
  have hres : resolveMonths env detail =
      resolveMonths env { detail with depreciation := some sid } := by
    simp [resolveMonths, hdep, hmod, hms]
  refine ⟨hres, ?_⟩
  rcases hpd : detail.purchase_date with _ | pd
  · simp [compute_depreciation_from_detail, hpd]
  · rcases pd with v | _
    · rcases hpc : detail.purchase_cost with _ | pc
      · simp [compute_depreciation_from_detail, hpd, hpc]
      · rcases pc with c | _
        · rw [hpd, hpc] at hres
          simp only [compute_depreciation_from_detail, hpd, hpc]
          rw [← hres]
        · simp [compute_depreciation_from_detail, hpd, hpc]
    · simp [compute_depreciation_from_detail, hpd]

theorem fdr_none_iff (l : List Char) :
    firstDigitRun l = none ↔ ∀ c ∈ l, ¬ c.isDigit := by
  induction l with
  | nil => simp [firstDigitRun]
  | cons c rest ih =>
    by_cases hc : c.isDigit
    · simp only [firstDigitRun, if_pos hc]
      constructor
      · intro h
        simp at h
      · intro h
        exact absurd hc (h c (by simp))
    · simp only [firstDigitRun, if_neg hc, ih]
      constructor
      · intro h x hx
        rcases List.mem_cons.mp hx with rfl | hx2
        · exact hc
        · exact h x hx2
      · intro h x hx
        exact h x (List.mem_cons_of_mem c hx)

theorem takeWhile_digits (r t : List Char) (hr : ∀ c ∈ r, c.isDigit)
    (ht : ∀ c, t.head? = some c → ¬ c.isDigit) :
    (r ++ t).takeWhile Char.isDigit = r := by
  induction r with
  | nil =>
    cases t with
    | nil => rfl
    | cons c t2 =>
      have hc := ht c rfl
      simp [List.takeWhile_cons, hc]
  | cons c r2 ih =>
    have hc : c.isDigit := hr c (by simp)
    simp only [List.cons_append, List.takeWhile_cons, hc, if_true]
    rw [ih (fun x hx => hr x (List.mem_cons_of_mem c hx))]

theorem fdr_skip (p l : List Char) (hp : ∀ c ∈ p, ¬ c.isDigit) :
    firstDigitRun (p ++ l) = firstDigitRun l := by
  induction p with
  | nil => rfl
  | cons c p2 ih =>
    have hc : ¬ c.isDigit := hp c (by simp)
    simp only [List.cons_append, firstDigitRun, if_neg hc]
    exact ih (fun x hx => hp x (List.mem_cons_of_mem c hx))

/-- Claim C4: month-count parsing returns the integer denoted by the
first maximal run of decimal digits regardless of surrounding text
("36 months" gives 36, "48 Month" gives 48, "12" gives 12), and fails
exactly when the string contains no decimal digit (modelled over ASCII
digits). -/
theorem claim4_parse_months_field :
    (parse_months_field "36 months" = some 36 ∧
     parse_months_field "48 Month" = some 48 ∧
     parse_months_field "12" = some 12) ∧
    (∀ s : String, parse_months_field s = none ↔ ∀ c ∈ s.data, ¬ c.isDigit) ∧
    (∀ (p r t : List Char), (∀ c ∈ p, ¬ c.isDigit) → r ≠ [] →
      (∀ c ∈ r, c.isDigit) → (∀ c, t.head? = some c → ¬ c.isDigit) →
      parse_months_field (String.mk (p ++ r ++ t)) = some (digitsVal r)) := by
  refine ⟨⟨by decide, by decide, by decide⟩, ?_, ?_⟩
  · intro s
    unfold parse_months_field
    rw [Option.map_eq_none']
    exact fdr_none_iff s.data
  · intro p r t hp hr hrd ht
    unfold parse_months_field
    have hdata : (String.mk (p ++ r ++ t)).data = p ++ (r ++ t) := by
      simp [List.append_assoc]
    rw [hdata, fdr_skip p (r ++ t) hp]
    rcases r with _ | ⟨c, r2⟩
    · exact absurd rfl hr
    · have hc : c.isDigit := hrd c (by simp)
      simp only [List.cons_append, firstDigitRun, if_pos hc]
      have htw := takeWhile_digits (c :: r2) t hrd ht
      rw [List.cons_append] at htw
      simp only [List.append_eq, htw]
      rfl

/-- Claim C8: for every batch, the running total equals the sum of the
amounts of the emitted entries, every emitted entry has a positive
amount (so zero-amount assets are iterated but emit nothing), and the
entry list is the `filterMap` of the asset list, so each asset yields at
most one entry and entries keep the processing order. -/
theorem claim8_batch_invariants :
    ∀ (env : Env) (ws we : Date) (assets : List AssetSummary),
      (processAssets env ws we assets).2 =
        ((processAssets env ws we assets).1.map DeprEntry.depreciation).sum ∧
      (∀ e ∈ (processAssets env ws we assets).1, 0 < e.depreciation) ∧
      (processAssets env ws we assets).1 =
        assets.filterMap (emitEntry env ws we) := by
  intro env ws we assets
  induction assets with
  | nil =>
    refine ⟨rfl, ?_, rfl⟩
    intro e he
    simp [processAssets] at he
  | cons a rest ih =>
    obtain ⟨ih1, ih2, ih3⟩ := ih
    rcases hid : a.id with _ | aid
    · have hp : processAssets env ws we (a :: rest) =
          processAssets env ws we rest := by
        simp [processAssets, hid]
      have he : emitEntry env ws we a = none := by
        simp [emitEntry, hid]
      rw [hp, List.filterMap_cons, he]
      exact ⟨ih1, ih2, ih3⟩
    · by_cases hq :
        0 < compute_depreciation_from_detail env (env.details aid) ws we
      · have hp : processAssets env ws we (a :: rest) =
            (⟨a.tag, compute_depreciation_from_detail env (env.details aid) ws we⟩ ::
              (processAssets env ws we rest).1,
             (processAssets env ws we rest).2 +
              compute_depreciation_from_detail env (env.details aid) ws we) := by
          simp [processAssets, hid, hq]
        have he : emitEntry env ws we a =
            some ⟨a.tag,
              compute_depreciation_from_detail env (env.details aid) ws we⟩ := by
          simp [emitEntry, hid, hq]
        rw [hp, List.filterMap_cons, he]
        refine ⟨?_, ?_, ?_⟩
        · simp only [List.map_cons, List.sum_cons]
          rw [ih1]
          ring
        · intro e hme
          rcases List.mem_cons.mp hme with rfl | hme2
          · exact hq
          · exact ih2 e hme2
        · rw [ih3]
      · have hp : processAssets env ws we (a :: rest) =
            processAssets env ws we rest := by
          simp [processAssets, hid, hq]
        have he : emitEntry env ws we a = none := by
          simp [emitEntry, hid, hq]
        rw [hp, List.filterMap_cons, he]
        exact ⟨ih1, ih2, ih3⟩

/-- Witness for claim C2. -/
theorem claim2_witness :
    resolveMonths envBadSched detailFull = none ∧
    compute_depreciation_from_detail envBadSched detailFull
      ⟨2020, 1, 1⟩ ⟨2020, 12, 31⟩ = 0 :=
  claim2_no_model_fallback.1 envBadSched detailFull 5 ⟨2020, 1, 1⟩
    ⟨2020, 12, 31⟩ (by decide)
    (Or.inr ⟨"N/A", by decide, by decide⟩)

/-- Witness for claim C3. -/
theorem claim3_witness :
    compute_depreciation_from_detail envGood detailNoDate
      ⟨2020, 1, 1⟩ ⟨2020, 12, 31⟩ = 0 ∧
    compute_depreciation_from_detail envGood detailNoDate
      ⟨2020, 1, 1⟩ ⟨2020, 12, 31⟩ =
      compute_depreciation_from_detail envBadSched detailNoDate
        ⟨2020, 1, 1⟩ ⟨2020, 12, 31⟩ :=
  ⟨claim3_invalid_inputs_zero.1 envGood detailNoDate ⟨2020, 1, 1⟩
      ⟨2020, 12, 31⟩ (Or.inl (by decide)),
   claim3_invalid_inputs_zero.2 envGood envBadSched detailNoDate ⟨2020, 1, 1⟩
      ⟨2020, 12, 31⟩ (Or.inl (by decide))⟩

/-- Witness for claim C4. -/
theorem claim4_witness :
    parse_months_field (String.mk (['x'] ++ ['4', '2'] ++ ['z'])) = some 42 := by
  rw [claim4_parse_months_field.2.2 ['x'] ['4', '2'] ['z'] (by decide)
    (by decide) (by decide)
    (fun c hc => by injection hc with h; subst h; decide)]
  decide

/-- Witness for claim C5. -/
theorem claim5_witness :
    12 * (addMonthsClamped ⟨2020, 1, 31⟩ 1).year +
        ((addMonthsClamped ⟨2020, 1, 31⟩ 1).month - 1) =
      12 * 2020 + (1 - 1) + 1 ∧
    toOrdinal (end_of_life ⟨2020, 1, 31⟩ 1) + 1 =
      toOrdinal (addMonthsClamped ⟨2020, 1, 31⟩ 1) :=
  ⟨(claim5_end_of_life_spec.1 ⟨2020, 1, 31⟩ 1 (by decide)).1,
   claim5_end_of_life_spec.2.1 ⟨2020, 1, 31⟩ 1 (by decide) (by decide)⟩

/-- Witness for claim C6. -/
theorem claim6_witness :
    computeCore ⟨2020, 1, 1⟩ 100 12 ⟨2023, 1, 1⟩ ⟨2023, 12, 31⟩ = 0 ∧
    computeCore ⟨2024, 1, 1⟩ 100 12 ⟨2023, 1, 1⟩ ⟨2023, 12, 31⟩ = 0 :=
  ⟨claim6_no_overlap_zero.1 ⟨2020, 1, 1⟩ 100 12 ⟨2023, 1, 1⟩ ⟨2023, 12, 31⟩
      (by decide),
   claim6_no_overlap_zero.2 ⟨2024, 1, 1⟩ 100 12 ⟨2023, 1, 1⟩ ⟨2023, 12, 31⟩
      (by decide)⟩

/-- Witness for claim C7. -/
theorem claim7_witness :
    ¬(toOrdinal (end_of_life ⟨2020, 1, 1⟩ 12) < toOrdinal ⟨2020, 12, 31⟩) ∧
    ¬(min (toOrdinal (end_of_life ⟨2020, 1, 1⟩ 12)) (toOrdinal ⟨2021, 6, 30⟩) <
        max (toOrdinal ⟨2020, 1, 1⟩) (toOrdinal ⟨2020, 12, 31⟩)) ∧
    depr_days ⟨2020, 1, 1⟩ ⟨2020, 12, 31⟩ ⟨2021, 6, 30⟩ 12 = 1 ∧
    computeCore ⟨2020, 1, 1⟩ 1200 12 ⟨2020, 12, 31⟩ ⟨2021, 6, 30⟩ =
      round2 (1200 / (total_life_days ⟨2020, 1, 1⟩ 12 : ℚ) * 1) :=
  claim7_boundary_one_day ⟨2020, 1, 1⟩ 1200 12 ⟨2020, 12, 31⟩ ⟨2021, 6, 30⟩
    (by decide) (by decide) (by decide) (by decide)

/-- Witness for claim C8. -/
theorem claim8_witness :
    (processAssets envGood ⟨2020, 1, 1⟩ ⟨2020, 12, 31⟩ [sumA, sumB]).2 =
      ((processAssets envGood ⟨2020, 1, 1⟩ ⟨2020, 12, 31⟩ [sumA, sumB]).1.map
        DeprEntry.depreciation).sum ∧
    (processAssets envGood ⟨2020, 1, 1⟩ ⟨2020, 12, 31⟩ [sumA, sumB]).1 =
      [sumA, sumB].filterMap (emitEntry envGood ⟨2020, 1, 1⟩ ⟨2020, 12, 31⟩) :=
  ⟨(claim8_batch_invariants envGood ⟨2020, 1, 1⟩ ⟨2020, 12, 31⟩
      [sumA, sumB]).1,
   (claim8_batch_invariants envGood ⟨2020, 1, 1⟩ ⟨2020, 12, 31⟩
      [sumA, sumB]).2.2⟩

/-- Witness for claim C9. -/
theorem claim9_witness :
    resolveMonths envGood detailNoSched =
      resolveMonths envGood { detailNoSched with depreciation := some 9 } ∧
    compute_depreciation_from_detail envGood detailNoSched
      ⟨2020, 1, 1⟩ ⟨2020, 12, 31⟩ =
      compute_depreciation_from_detail envGood
        { detailNoSched with depreciation := some 9 }
        ⟨2020, 1, 1⟩ ⟨2020, 12, 31⟩ :=
  claim9_model_fallback_equiv envGood detailNoSched 7 9 ⟨2020, 1, 1⟩
    ⟨2020, 12, 31⟩ (by decide) (by decide) (by decide)

/-- Witness for claim C10. -/
theorem claim10_witness :
    computeCore ⟨2020, 1, 5⟩ 100 0 ⟨2020, 1, 1⟩ ⟨2020, 12, 31⟩ = 0 ∧
    1 ≤ total_life_days ⟨2020, 1, 1⟩ 12 :=
  ⟨claim10_division_guard.1 ⟨2020, 1, 5⟩ 100 ⟨2020, 1, 1⟩ ⟨2020, 12, 31⟩
      (by decide) (by decide),
   claim10_division_guard.2 ⟨2020, 1, 1⟩ 12 ⟨2020, 1, 1⟩ ⟨2020, 12, 31⟩
      (by decide) (by decide)⟩
